import Mathlib

/-!
Verification development for the `upload_file` application.

We embed the parts of the source relevant to the stated properties:
  * `src/services/ssh_client.py` (class `SSHClient`),
  * `src/models/database.py` (class `DatabaseManager`),
  * `src/ui/browse_view.py` (`refresh_folder_list`, `_delete_selected_file`),
  * `src/ui/upload_view.py` (`_upload_file`).

The remote side (paramiko library calls: connect, exec_command, open_sftp,
put, stat, remove) is modelled by an environment record `Env` that fixes the
outcome of each library call; the mutable fields of `SSHClient`
(`self.client`, `self.sftp`) become an explicit state record threaded through
each method.
-/

namespace UploadFile

/-! ### String helpers mirroring the Python string operations used -/

/-- Helper `leadsWith pat s` is true when `pat` is an initial segment of `s`
(char-list version, used to build the substring test below). -/
def leadsWith : List Char → List Char → Bool
  | [], _ => true
  | _ :: _, [] => false
  | a :: as, b :: bs => a == b && leadsWith as bs

/-- Helper `containsSub pat s`: `pat` occurs as a contiguous run inside `s`.
Mirrors Python's `pat in s` on strings (via their char lists). -/
def containsSub (pat : List Char) : List Char → Bool
  | [] => leadsWith pat []
  | c :: rest => leadsWith pat (c :: rest) || containsSub pat rest

/-- Python `str.lower()` (ASCII case mapping, which is all the error texts
here use). -/
def pyLower (s : String) : String :=
  String.mk (s.data.map Char.toLower)

/-- Python `str.strip()` with no argument: drop whitespace from both ends. -/
def pyStrip (s : String) : String :=
  String.mk (((s.data.dropWhile Char.isWhitespace).reverse.dropWhile
    Char.isWhitespace).reverse)

/-- Python `"already exists" in error.lower()` from
`ssh_client.py::create_folder`. -/
def hasAlreadyExistsMarker (err : String) : Bool :=
  containsSub "already exists".data (pyLower err).data

/-- Two-argument `os.path.join` (posix semantics; the source immediately
normalises separators with `.replace("\\", "/")`, see `remotePathJoin`,
which makes the posix and nt variants agree on the paths this app builds). -/
def joinPath (a b : String) : String :=
  if leadsWith ['/'] b.data then b
  else if a = "" ∨ a.data.getLast? = some '/' then a ++ b
  else a ++ "/" ++ b

/-- Helper `os.path.join(a, b).replace("\\", "/")` — the path-building idiom used
throughout `ssh_client.py` and `browse_view.py` (the replaced pattern is a
single character, so the replacement is character-wise). -/
def remotePathJoin (a b : String) : String :=
  String.mk ((joinPath a b).data.map (fun c => if c = '\\' then '/' else c))

/-- Helper `os.path.basename` (posix semantics): the part after the last slash. -/
def basename (s : String) : String :=
  String.mk ((s.data.reverse.takeWhile (fun c => c ≠ '/')).reverse)

/-- Python `text.split("\r\n")`: left-to-right scan for non-overlapping
occurrences of the two-character separator; the accumulator holds the
current piece reversed. -/
def splitCRLF : List Char → List Char → List String
  | [], acc => [String.mk acc.reverse]
  | c1 :: c2 :: rest, acc =>
    if c1 = '\r' ∧ c2 = '\n' then
      String.mk acc.reverse :: splitCRLF rest []
    else
      splitCRLF (c2 :: rest) (c1 :: acc)
  | [c], acc => [String.mk (c :: acc).reverse]

/-- The directory-listing parser: Python
`[name for name in output.split('\r\n') if name]`
shared by `list_folders` (line 122) and `list_files` (line 143). -/
def parseListing (output : String) : List String :=
  (splitCRLF output.data []).filter (fun name => name ≠ "")

/-! ### The remote environment and the SSH client state -/

/-- Outcome of one `client.exec_command` round-trip: either captured
stdout/stderr/exit-status, or a raised transport exception with message. -/
inductive ExecRes where
  | ok (out err : String) (status : Int)
  | fail (msg : String)
deriving DecidableEq

/-- Fixed outcomes of the underlying paramiko library calls.  `none` in an
`Option String` field means the call succeeds; `some msg` means it raises an
exception whose `str` is `msg`. -/
structure Env where
  /-- outcome of `paramiko.SSHClient.connect(host, port, user, password)` -/
  connectErr : Option String
  /-- outcome of `exec_command cmd` over an authenticated transport -/
  exec : String → ExecRes
  /-- message of the exception raised by any operation attempted on an
  unauthenticated (never-connected) client handle -/
  noSessionMsg : String
  /-- outcome of `client.open_sftp()` over an authenticated transport -/
  sftpOpen : Option String
  /-- outcome of `sftp.put(localPath, remotePath)` -/
  putRes : String → String → Option String
  /-- outcome of `sftp.stat(remotePath)`: the reported `st_size`, or a
  raised exception -/
  statRes : String → Except String Nat
  /-- outcome of `sftp.remove(remotePath)` -/
  removeRes : String → Option String
  /-- whether `sftp.close()` raises during shutdown (swallowed by `close`) -/
  sftpCloseErr : Option String
  /-- whether `client.close()` raises during shutdown (swallowed) -/
  clientCloseErr : Option String

/-- The `self.client` handle: a `paramiko.SSHClient` object, which exists as
soon as the constructor runs and is `authenticated` only after
`client.connect(...)` returned without raising. -/
structure Handle where
  authenticated : Bool
deriving DecidableEq

/-- Mutable fields of `SSHClient`: `self.client` and `self.sftp`
(`None` ↦ `none`). The sftp handle carries no data we observe. -/
structure SSHState where
  client : Option Handle
  sftp : Option Unit
deriving DecidableEq

/-- Result dictionary of a successful `upload_file`:
`{"path": remote_file_path, "size": file_size}`. -/
structure UploadResult where
  path : String
  size : Nat
deriving DecidableEq

namespace SSHClient

/-- Method `__init__`: `self.client = None`, `self.sftp = None`. -/
def initState : SSHState :=
  { client := none, sftp := none }

/-- Method `connect` (ssh_client.py lines 16-33).  Note the source order:
`self.client = paramiko.SSHClient()` runs, then host-key policy, then
`self.client.connect(...)`; an exception from the connect call is caught and
reported, but `self.client` already holds the fresh (unauthenticated)
handle at that point. -/
def connect (env : Env) (s : SSHState) : (Bool × Option String) × SSHState :=
  let s1 : SSHState := { s with client := some { authenticated := false } }
  match env.connectErr with
  | none => ((true, none), { s1 with client := some { authenticated := true } })
  | some e => ((false, some ("SSH Connection Error: " ++ e)), s1)

/-- Body of `exec_command` once `self.client` is known non-None: the library
call succeeds only over an authenticated transport; stdout/stderr text is
`.strip()`ed (modelled with `pyStrip`). Mirrors lines 73-82. -/
def execBody (env : Env) (cmd : String) (s : SSHState) :
    (Option String × String × Int) × SSHState :=
  match s.client with
  | some h =>
    match (if h.authenticated then env.exec cmd else ExecRes.fail env.noSessionMsg) with
    | ExecRes.ok out err status => ((some (pyStrip out), pyStrip err, status), s)
    | ExecRes.fail msg => ((none, msg, -1), s)
  | none =>
    -- unreachable: every caller establishes `self.client` first
    ((none, env.noSessionMsg, -1), s)

/-- Method `execute_command` (lines 67-82): lazily connects when `self.client` is
None; on connect failure returns `(None, error, -1)`. -/
def execute_command (env : Env) (cmd : String) (s : SSHState) :
    (Option String × String × Int) × SSHState :=
  match s.client with
  | none =>
    match connect env s with
    | ((true, _), s1) => execBody env cmd s1
    | ((false, err), s1) => ((none, err.getD "", -1), s1)
  | some _ => execBody env cmd s

/-- Method `open_sftp` (lines 35-47): lazily connects, then
`self.sftp = self.client.open_sftp()`; an exception leaves `self.sftp`
unchanged and returns the error. -/
def open_sftp (env : Env) (s : SSHState) : (Bool × Option String) × SSHState :=
  let body : SSHState → (Bool × Option String) × SSHState := fun s1 =>
    match s1.client with
    | some h =>
      match (if h.authenticated then env.sftpOpen else some env.noSessionMsg) with
      | none => ((true, none), { s1 with sftp := some () })
      | some e => ((false, some ("SFTP Connection Error: " ++ e)), s1)
    | none =>
      -- unreachable: guarded by the connect step below
      ((false, some ("SFTP Connection Error: " ++ env.noSessionMsg)), s1)
  match s.client with
  | none =>
    match connect env s with
    | ((true, _), s1) => body s1
    | ((false, err), s1) => ((false, err), s1)
  | some _ => body s

/-- One release action performed by `close`, in the order performed. -/
inductive ReleaseAct where
  | sftpClose
  | clientClose
deriving DecidableEq

/-- Method `close` (lines 49-65): `if self.sftp: try close / except pass / finally
self.sftp = None`, then the same for `self.client`.  Any exception from the
library `close()` calls (the `env.sftpCloseErr` / `env.clientCloseErr`
outcomes) is swallowed; the `finally` blocks null both fields regardless.
The returned list records which library releases were attempted, in order. -/
def close (_env : Env) (s : SSHState) : SSHState × List ReleaseAct :=
  let (s1, t1) :=
    match s.sftp with
    | some _ => ({ s with sftp := none }, [ReleaseAct.sftpClose])
    | none => (s, [])
  let (s2, t2) :=
    match s1.client with
    | some _ => ({ s1 with client := none }, [ReleaseAct.clientClose])
    | none => (s1, [])
  (s2, t1 ++ t2)

/-- Method `create_folder` (lines 84-103): builds
`os.path.join(remote_dir, folder).replace("\\","/")`, runs
`mkdir "<path>"`, succeeds when the exit status is 0 or the (lower-cased)
error text contains `"already exists"`; otherwise fails with the raw error
text.  On success the second component is the resolved path, on failure the
error text. -/
def create_folder (env : Env) (remote_dir folder_name : String) (s : SSHState) :
    (Bool × String) × SSHState :=
  let withClient : SSHState → (Bool × String) × SSHState := fun s1 =>
    let remote_folder_path := remotePathJoin remote_dir folder_name
    match execute_command env ("mkdir \"" ++ remote_folder_path ++ "\"") s1 with
    | ((_, err, status), s2) =>
      if status = 0 ∨ hasAlreadyExistsMarker err then
        ((true, remote_folder_path), s2)
      else
        ((false, err), s2)
  match s.client with
  | none =>
    match connect env s with
    | ((true, _), s1) => withClient s1
    | ((false, err), s1) => ((false, err.getD ""), s1)
  | some _ => withClient s

/-- Method `list_folders` (lines 105-122): runs `dir "<root>" /b /ad`; on exit 0
parses the output through the listing comprehension (`parseListing`), else
returns `[]` plus the error text. (When the exit status is 0 the stdout is
always a string, so the `getD ""` default is never consulted.) -/
def list_folders (env : Env) (remote_dir : String) (s : SSHState) :
    (List String × Option String) × SSHState :=
  let withClient : SSHState → (List String × Option String) × SSHState := fun s1 =>
    match execute_command env ("dir \"" ++ remote_dir ++ "\" /b /ad") s1 with
    | ((out, err, status), s2) =>
      if status = 0 then
        ((parseListing (out.getD ""), none), s2)
      else
        (([], some err), s2)
  match s.client with
  | none =>
    match connect env s with
    | ((true, _), s1) => withClient s1
    | ((false, err), s1) => (([], err), s1)
  | some _ => withClient s

/-- Method `list_files` (lines 124-143): as `list_folders` but against
`root/folder` with `/a-d` (files only). -/
def list_files (env : Env) (remote_dir folder_name : String) (s : SSHState) :
    (List String × Option String) × SSHState :=
  let withClient : SSHState → (List String × Option String) × SSHState := fun s1 =>
    let remote_folder_path := remotePathJoin remote_dir folder_name
    match execute_command env ("dir \"" ++ remote_folder_path ++ "\" /b /a-d") s1 with
    | ((out, err, status), s2) =>
      if status = 0 then
        ((parseListing (out.getD ""), none), s2)
      else
        (([], some err), s2)
  match s.client with
  | none =>
    match connect env s with
    | ((true, _), s1) => withClient s1
    | ((false, err), s1) => (([], err), s1)
  | some _ => withClient s

/-- Method `upload_file` (lines 170-203): ensure client; ensure folder via
`create_folder` (failure aborts with its error); ensure sftp via
`open_sftp` when `self.sftp` is None (failure aborts); `sftp.put` the local
file to `root/folder/basename(local)`; re-`stat` the remote copy and return
`{"path": …, "size": st_size}`.  Exceptions from put/stat are caught and
returned as `(None, str(e))`. -/
def upload_file (env : Env) (remote_dir local_file_path folder_name : String)
    (s : SSHState) : (Option UploadResult × Option String) × SSHState :=
  let body : SSHState → (Option UploadResult × Option String) × SSHState := fun s1 =>
    match create_folder env remote_dir folder_name s1 with
    | ((false, err), s2) => ((none, some err), s2)
    | ((true, _), s2) =>
      let afterSftp : (Bool × Option String) × SSHState :=
        match s2.sftp with
        | none => open_sftp env s2
        | some _ => ((true, none), s2)
      match afterSftp with
      | ((false, err), s3) => ((none, err), s3)
      | ((true, _), s3) =>
        let file_name := basename local_file_path
        let remote_folder_path := remotePathJoin remote_dir folder_name
        let remote_file_path := remotePathJoin remote_folder_path file_name
        match env.putRes local_file_path remote_file_path with
        | some e => ((none, some e), s3)
        | none =>
          match env.statRes remote_file_path with
          | Except.error e => ((none, some e), s3)
          | Except.ok sz =>
            ((some { path := remote_file_path, size := sz }, none), s3)
  match s.client with
  | none =>
    match connect env s with
    | ((true, _), s1) => body s1
    | ((false, err), s1) => ((none, err), s1)
  | some _ => body s

/-- Method `delete_file` (lines 230-252): ensure client, ensure sftp,
`sftp.remove(root/folder/file)`; success flag plus optional error. -/
def delete_file (env : Env) (remote_dir folder_name file_name : String)
    (s : SSHState) : (Bool × Option String) × SSHState :=
  let body : SSHState → (Bool × Option String) × SSHState := fun s1 =>
    let afterSftp : (Bool × Option String) × SSHState :=
      match s1.sftp with
      | none => open_sftp env s1
      | some _ => ((true, none), s1)
    match afterSftp with
    | ((false, err), s2) => ((false, err), s2)
    | ((true, _), s2) =>
      let remote_path :=
        remotePathJoin (remotePathJoin remote_dir folder_name) file_name
      match env.removeRes remote_path with
      | some e => ((false, some e), s2)
      | none => ((true, none), s2)
  match s.client with
  | none =>
    match connect env s with
    | ((true, _), s1) => body s1
    | ((false, err), s1) => ((false, err), s1)
  | some _ => body s

end SSHClient

/-! ### The metadata store (src/models/database.py, class DatabaseManager)

The two sqlite tables become two lists of records; `AUTOINCREMENT` ids are
modelled by `nextFolderId` / `nextFileId` counters starting at 1 (sqlite
row ids start at 1, which matters because the Python code tests ids for
truthiness: `if error or not folder_id`). -/

/-- A row of the `folders` table (`id, name UNIQUE, full_path, created_at`);
the timestamp plays no role in any property and is omitted. -/
structure FolderRec where
  id : Nat
  name : String
  full_path : String
deriving DecidableEq

/-- A row of the `files` table
(`id, name, folder_id, local_path, remote_path, size, uploaded_at`,
`UNIQUE (folder_id, name)`); the timestamp is omitted. -/
structure FileRec where
  id : Nat
  name : String
  folder_id : Nat
  local_path : String
  remote_path : String
  size : Nat
deriving DecidableEq

/-- The database state: rows in insertion (rowid) order. -/
structure DB where
  folders : List FolderRec
  files : List FileRec
  nextFolderId : Nat
  nextFileId : Nat
deriving DecidableEq

namespace DatabaseManager

/-- Python truthiness of a fetched id (`None` and `0` are falsy). -/
def truthyId : Option Nat → Bool
  | none => false
  | some i => i ≠ 0

/-- Insertion into a `≤`-sorted list (used to model `ORDER BY name`). -/
def insertSorted (x : String) : List String → List String
  | [] => [x]
  | y :: ys => if x ≤ y then x :: y :: ys else y :: insertSorted x ys

/-- Sort a list of names ascending (`ORDER BY name`). -/
def sortNames (l : List String) : List String :=
  l.foldr insertSorted []

/-- Method `add_folder` (lines 53-65): `INSERT OR IGNORE INTO folders` — on a
`name` uniqueness conflict the statement is ignored, the existing row is
untouched, and the method still reports success. -/
def add_folder (db : DB) (folder_name full_path : String) :
    (Bool × Option String) × DB :=
  if db.folders.any (fun r => r.name == folder_name) then
    ((true, none), db)
  else
    ((true, none),
     { db with
        folders := db.folders ++
          [{ id := db.nextFolderId, name := folder_name, full_path := full_path }],
        nextFolderId := db.nextFolderId + 1 })

/-- Method `get_folder_names` (lines 76-83): `SELECT name FROM folders ORDER BY
name`. -/
def get_folder_names (db : DB) : List String × Option String :=
  (sortNames (db.folders.map (fun r => r.name)), none)

/-- Method `get_folder_id` (lines 85-93): `SELECT id FROM folders WHERE name = ?`,
`fetchone` — `name` is UNIQUE so the first match is the only one. -/
def get_folder_id (db : DB) (folder_name : String) :
    Option Nat × Option String :=
  ((db.folders.find? (fun r => r.name == folder_name)).map (fun r => r.id), none)

/-- Method `get_folder_path` (lines 95-103). -/
def get_folder_path (db : DB) (folder_name : String) :
    Option String × Option String :=
  ((db.folders.find? (fun r => r.name == folder_name)).map (fun r => r.full_path),
   none)

/-- Method `clear_folders` (lines 105-113): `DELETE FROM folders` (the `files`
table is untouched — orphaned file rows survive). -/
def clear_folders (db : DB) : (Bool × Option String) × DB :=
  ((true, none), { db with folders := [] })

/-- Method `add_file` (lines 115-133): fails with `"Folder not found in database"`
when `get_folder_id` yields an error or a falsy id; otherwise
`INSERT OR REPLACE INTO files` — the row conflicting on
`(folder_id, name)` (if any) is deleted and a fresh row (fresh rowid) is
inserted. -/
def add_file (db : DB) (file_name folder_name local_path remote_path : String)
    (file_size : Nat) : (Bool × Option String) × DB :=
  let fid? := (get_folder_id db folder_name).1
  if truthyId fid? then
    match fid? with
    | some fid =>
      ((true, none),
       { db with
          files :=
            db.files.filter (fun r => !(r.folder_id == fid && r.name == file_name))
              ++ [{ id := db.nextFileId, name := file_name, folder_id := fid,
                    local_path := local_path, remote_path := remote_path,
                    size := file_size }],
          nextFileId := db.nextFileId + 1 })
    | none => ((false, some "Folder not found in database"), db)
  else
    ((false, some "Folder not found in database"), db)

/-- Method `get_file_by_name` (lines 155-170): resolve the folder id (same falsy
test), then `SELECT … FROM files WHERE folder_id = ? AND name = ?`,
`fetchone`. -/
def get_file_by_name (db : DB) (folder_name file_name : String) :
    Option FileRec × Option String :=
  let fid? := (get_folder_id db folder_name).1
  if truthyId fid? then
    match fid? with
    | some fid =>
      (db.files.find? (fun r => r.folder_id == fid && r.name == file_name), none)
    | none => (none, some "Folder not found in database")
  else
    (none, some "Folder not found in database")

/-- Method `delete_file` (lines 172-180): `DELETE FROM files WHERE id = ?`. -/
def delete_file (db : DB) (file_id : Nat) : (Bool × Option String) × DB :=
  ((true, none), { db with files := db.files.filter (fun r => !(r.id == file_id)) })

end DatabaseManager

/-! ### UI orchestration (src/ui/browse_view.py, src/ui/upload_view.py)

The orchestration functions receive the already-computed result of the
Session Manager call they wrap (the call's outcome is the interface point);
their own logic — which cache mutations happen on which outcome — is
embedded from the source. -/

namespace BrowseView

/-- Loop body of `refresh_folder_list` (browse_view.py lines 160-164):
`for folder_name in folders: if folder_name: db.add_folder(folder_name,
os.path.join(remote_dir, folder_name).replace("\\","/"))`. -/
def addAll (remote_dir : String) (names : List String) (db : DB) : DB :=
  names.foldl
    (fun d n =>
      if n ≠ "" then (DatabaseManager.add_folder d n (remotePathJoin remote_dir n)).2
      else d)
    db

/-- Handler `refresh_folder_list` (browse_view.py lines 141-176), cache effect:
given the result of `ssh_client.list_folders()`, on error the database is
untouched; otherwise `clear_folders()` then the `add_folder` loop.
(`clear_folders` never fails in the model, so its error branch — which also
leaves the loop unexecuted — is vacuous here.) -/
def refresh_folder_list (remote_dir : String)
    (listing : List String × Option String) (db : DB) : DB :=
  match listing with
  | (_, some _) => db
  | (folders, none) => addAll remote_dir folders (DatabaseManager.clear_folders db).2

/-- Handler `_delete_selected_file` (browse_view.py lines 385-429), cache effect:
given the result of `ssh_client.delete_file(...)`, on failure return (cache
untouched); on success look up the record by `(folder, name)` and delete it
by id when present. -/
def delete_selected_file (remoteDelete : Bool × Option String) (db : DB)
    (folder_name file_name : String) : DB :=
  if remoteDelete.1 then
    match (DatabaseManager.get_file_by_name db folder_name file_name).1 with
    | some rec => (DatabaseManager.delete_file db rec.id).2
    | none => db
  else
    db

end BrowseView

namespace UploadView

/-- Handler `_upload_file` (upload_view.py lines 209-246), cache effect: given the
result of `ssh_client.upload_file(local, folder)`, `if error:` return with
no cache write; otherwise `db.add_file(basename(local), folder, local,
result["path"], result["size"])` (a failure of `add_file` itself only
produces a warning).  The source never reaches the result-access with
`result = None` since `upload_file` returns an error in every such case. -/
def upload_file_cache (uploadRes : Option UploadResult × Option String)
    (db : DB) (local_file_path target_folder : String) : DB :=
  match uploadRes with
  | (_, some _) => db
  | (some r, none) =>
    (DatabaseManager.add_file db (basename local_file_path) target_folder
      local_file_path r.path r.size).2
  | (none, none) => db

end UploadView

/-! ### Concrete instances used in the closed witness statements -/

/-- A session whose `self.client` is an authenticated handle and whose
sftp channel is not yet open. -/
def liveState : SSHState :=
  { client := some { authenticated := true }, sftp := none }

/-- A benign environment: connect succeeds, every command exits 0 with
stdout `"alpha\r\nbeta"`, sftp opens, put/remove succeed, stat reports
size 5. -/
def baseEnv : Env :=
  { connectErr := none
    exec := fun _ => ExecRes.ok "alpha\r\nbeta" "" 0
    noSessionMsg := "SSH session not active"
    sftpOpen := none
    putRes := fun _ _ => none
    statRes := fun _ => Except.ok 5
    removeRes := fun _ => none
    sftpCloseErr := none
    clientCloseErr := none }

/-- Variant of `baseEnv` with a refused TCP connection. -/
def envConnRefused : Env :=
  { baseEnv with connectErr := some "Connection refused" }

/-- Variant of `baseEnv` where `mkdir` exits 1 with an "already exists" complaint. -/
def envMkdirExists : Env :=
  { baseEnv with
      exec := fun _ => ExecRes.ok "" "A subdirectory or file already exists." 1 }

/-- A database holding one folder `docs` and one cached file
`docs/a.txt`. -/
def dbSample : DB :=
  { folders := [{ id := 1, name := "docs", full_path := "C:/root/docs" }]
    files := [{ id := 1, name := "a.txt", folder_id := 1,
                local_path := "C:/tmp/a.txt",
                remote_path := "C:/root/docs/a.txt", size := 5 }]
    nextFolderId := 2
    nextFileId := 2 }

/-- A freshly initialised database: both tables empty. -/
def emptyDB : DB :=
  { folders := [], files := [], nextFolderId := 1, nextFileId := 1 }

/-! ## Theorems -/

/-- Claim C1: the directory-listing parser returns the non-empty pieces of
splitting the text on `"\r\n"`, in emitted order (a sublist of the split,
no sorting), dropping empty entries; `"alpha\r\nbeta\r\n\r\ngamma"` yields
`["alpha","beta","gamma"]` and `""` yields `[]`; `list_folders` and
`list_files` apply exactly this parser to the (stripped) stdout of their
listing commands when the command exits 0. -/
theorem c1_directory_listing :
    (∀ s : String,
        List.Sublist (parseListing s) (splitCRLF s.data []) ∧
        ∀ n ∈ parseListing s, n ≠ "") ∧
    parseListing "alpha\r\nbeta\r\n\r\ngamma" = ["alpha", "beta", "gamma"] ∧
    parseListing "" = [] ∧
    (∀ (env : Env) (root : String) (s : SSHState) (out err : String),
        s.client = some { authenticated := true } →
        env.exec ("dir \"" ++ root ++ "\" /b /ad") = ExecRes.ok out err 0 →
        (SSHClient.list_folders env root s).1 = (parseListing (pyStrip out), none)) ∧
    (∀ (env : Env) (root folder : String) (s : SSHState) (out err : String),
        s.client = some { authenticated := true } →
        env.exec ("dir \"" ++ remotePathJoin root folder ++ "\" /b /a-d")
          = ExecRes.ok out err 0 →
        (SSHClient.list_files env root folder s).1 = (parseListing (pyStrip out), none)) := by
  refine ⟨fun s => ⟨List.filter_sublist _, ?_⟩, by decide, by decide, ?_, ?_⟩
  · intro n hn
    have h := List.mem_filter.mp hn
    simpa using h.2
  · intro env root s out err hcl hexec
    simp [SSHClient.list_folders, SSHClient.execute_command, SSHClient.execBody,
      hcl, hexec]
  · intro env root folder s out err hcl hexec
    simp [SSHClient.list_files, SSHClient.execute_command, SSHClient.execBody,
      hcl, hexec]

/-- Closed witness for C1: in a live session whose listing command prints
`"alpha\r\nbeta"`, `list_folders` returns those two names in order. -/
theorem c1_directory_listing_witness :
    (SSHClient.list_folders baseEnv "C:/root" liveState).1
      = (["alpha", "beta"], none) := by
  have h := c1_directory_listing.2.2.2.1 baseEnv "C:/root" liveState
    "alpha\r\nbeta" "" rfl rfl
  simpa using h

/-- Claim C2: `create_folder` succeeds (returning the resolved path
`root/name`) iff the mkdir command's exit status is zero or its error text
contains "already exists" case-insensitively; every other non-zero
outcome — including a transport failure, which is reported with status
`-1` — fails with the raw error text. -/
theorem c2_create_folder_success_condition
    (env : Env) (root name : String) (s : SSHState)
    (hcl : s.client = some { authenticated := true }) :
    (∀ out err st,
        env.exec ("mkdir \"" ++ remotePathJoin root name ++ "\"")
          = ExecRes.ok out err st →
        ((SSHClient.create_folder env root name s).1.1 = true ↔
            st = 0 ∨ hasAlreadyExistsMarker (pyStrip err) = true) ∧
        (st = 0 ∨ hasAlreadyExistsMarker (pyStrip err) = true →
          (SSHClient.create_folder env root name s).1
            = (true, remotePathJoin root name)) ∧
        (¬(st = 0 ∨ hasAlreadyExistsMarker (pyStrip err) = true) →
          (SSHClient.create_folder env root name s).1 = (false, pyStrip err))) ∧
    (∀ msg,
        env.exec ("mkdir \"" ++ remotePathJoin root name ++ "\"")
          = ExecRes.fail msg →
        ((SSHClient.create_folder env root name s).1.1 = true ↔
            hasAlreadyExistsMarker msg = true) ∧
        (hasAlreadyExistsMarker msg = true →
          (SSHClient.create_folder env root name s).1
            = (true, remotePathJoin root name)) ∧
        (hasAlreadyExistsMarker msg = false →
          (SSHClient.create_folder env root name s).1 = (false, msg))) := by
  constructor
  · intro out err st hexec
    by_cases hcond : st = 0 ∨ hasAlreadyExistsMarker (pyStrip err) = true
    · refine ⟨?_, fun _ => ?_, fun hn => absurd hcond hn⟩ <;>
        simp [SSHClient.create_folder, SSHClient.execute_command,
          SSHClient.execBody, hcl, hexec, hcond]
    · have hst : ¬ st = 0 := fun h => hcond (Or.inl h)
      have hmk : ¬ hasAlreadyExistsMarker (pyStrip err) = true :=
        fun h => hcond (Or.inr h)
      refine ⟨?_, fun h => absurd h hcond, fun _ => ?_⟩ <;>
        simp [SSHClient.create_folder, SSHClient.execute_command,
          SSHClient.execBody, hcl, hexec, hst, hmk]
  · intro msg hexec
    by_cases hmk : hasAlreadyExistsMarker msg = true
    · refine ⟨?_, fun _ => ?_, fun hf => ?_⟩
      · simp [SSHClient.create_folder, SSHClient.execute_command,
          SSHClient.execBody, hcl, hexec, hmk]
      · simp [SSHClient.create_folder, SSHClient.execute_command,
          SSHClient.execBody, hcl, hexec, hmk]
      · rw [hmk] at hf; exact absurd hf (by simp)
    · have hmk' : hasAlreadyExistsMarker msg = false := by
        simpa using hmk
      refine ⟨?_, fun h => absurd h hmk, fun _ => ?_⟩ <;>
        simp [SSHClient.create_folder, SSHClient.execute_command,
          SSHClient.execBody, hcl, hexec, hmk']

/-- Closed witness for C2: a mkdir that exits 1 complaining
"A subdirectory or file already exists." is treated as success and returns
the resolved path. -/
theorem c2_create_folder_success_condition_witness :
    (SSHClient.create_folder envMkdirExists "C:/root" "docs" liveState).1
      = (true, "C:/root/docs") := by
  have h := ((c2_create_folder_success_condition envMkdirExists "C:/root" "docs"
      liveState rfl).1 "" "A subdirectory or file already exists." 1 rfl).2.1
    (Or.inr (by decide))
  simpa using h

/-- Claim C3: the orchestrated delete removes the matching cache record
only after the remote `delete_file` succeeds; whenever the remote delete
fails the cache is untouched (the record, if any, is still present). -/
theorem c3_delete_cache_after_remote_success :
    (∀ (err : Option String) (db : DB) (folder file : String),
        BrowseView.delete_selected_file (false, err) db folder file = db) ∧
    (∀ (res : Bool × Option String) (db : DB) (folder file : String)
        (rec : FileRec),
        res.1 = true →
        (DatabaseManager.get_file_by_name db folder file).1 = some rec →
        rec.id ∉ (BrowseView.delete_selected_file res db folder file).files.map
          (fun r => r.id)) ∧
    (∀ (err : Option String) (db : DB) (folder file : String) (rec : FileRec),
        (DatabaseManager.get_file_by_name db folder file).1 = some rec →
        rec ∈ (BrowseView.delete_selected_file (false, err) db folder file).files) := by
  refine ⟨fun err db folder file => by simp [BrowseView.delete_selected_file],
    ?_, ?_⟩
  · intro res db folder file rec hres hfind
    simp only [BrowseView.delete_selected_file, hres, if_pos, hfind,
      DatabaseManager.delete_file]
    simp only [List.mem_map, List.mem_filter]
    rintro ⟨r, ⟨_, hne⟩, hid⟩
    simp [hid] at hne
  · intro err db folder file rec hfind
    have hmem : rec ∈ db.files := by
      unfold DatabaseManager.get_file_by_name at hfind
      rcases h : (DatabaseManager.get_folder_id db folder).1 with _ | fid
      · rw [h] at hfind; simp [DatabaseManager.truthyId] at hfind
      · rw [h] at hfind
        by_cases hz : fid = 0
        · simp [DatabaseManager.truthyId, hz] at hfind
        · simp [DatabaseManager.truthyId, hz] at hfind
          exact List.mem_of_find?_eq_some hfind
    simpa [BrowseView.delete_selected_file] using hmem

/-- Closed witness for C3: after a successful remote delete of
`docs/a.txt`, no file row with the looked-up id 1 remains; with the same
database a failed remote delete leaves the cached record in place. -/
theorem c3_delete_cache_after_remote_success_witness :
    ((1 : Nat) ∉ (BrowseView.delete_selected_file (true, none) dbSample
        "docs" "a.txt").files.map (fun r => r.id)) ∧
    ({ id := 1, name := "a.txt", folder_id := 1, local_path := "C:/tmp/a.txt",
       remote_path := "C:/root/docs/a.txt", size := 5 : FileRec }
      ∈ (BrowseView.delete_selected_file (false, some "boom") dbSample
          "docs" "a.txt").files) :=
  ⟨c3_delete_cache_after_remote_success.2.1 (true, none) dbSample "docs" "a.txt"
      { id := 1, name := "a.txt", folder_id := 1, local_path := "C:/tmp/a.txt",
        remote_path := "C:/root/docs/a.txt", size := 5 } rfl rfl,
   c3_delete_cache_after_remote_success.2.2 (some "boom") dbSample "docs" "a.txt"
      { id := 1, name := "a.txt", folder_id := 1, local_path := "C:/tmp/a.txt",
        remote_path := "C:/root/docs/a.txt", size := 5 } rfl⟩

/-- Counterexample to Claim C6 as stated: with a refused connection and a
previously unconnected session, `connect` returns failure yet the
connection handle is no longer `None` — the source assigns
`self.client = paramiko.SSHClient()` before attempting to authenticate, so
the failed attempt leaves a fresh unauthenticated handle behind. -/
theorem c6_counterexample :
    (SSHClient.connect envConnRefused SSHClient.initState).1.1 = false ∧
    (SSHClient.connect envConnRefused SSHClient.initState).2.client ≠ none := by
  decide

/-- Claim C6 (amended): the connection handle is `None` only before the
first `connect()` call; every `connect()` installs a fresh handle before
authenticating, so a successful call leaves an authenticated handle and a
failed call leaves a non-`None` unauthenticated handle. -/
theorem c6_connect_handle
    (env : Env) (s : SSHState) :
    SSHClient.initState.client = none ∧
    ((SSHClient.connect env s).1.1 = true →
      (SSHClient.connect env s).2.client = some { authenticated := true }) ∧
    ((SSHClient.connect env s).1.1 = false →
      (SSHClient.connect env s).2.client = some { authenticated := false }) := by
  refine ⟨rfl, ?_, ?_⟩ <;>
    · intro h
      rcases henv : env.connectErr with _ | e <;>
        simp [SSHClient.connect, henv] at h ⊢

/-- Closed witness for C6 (amended): a successful first connect yields an
authenticated handle; a refused one yields a present-but-unauthenticated
handle. -/
theorem c6_connect_handle_witness :
    (SSHClient.connect baseEnv SSHClient.initState).2.client
        = some { authenticated := true } ∧
    (SSHClient.connect envConnRefused SSHClient.initState).2.client
        = some { authenticated := false } :=
  ⟨(c6_connect_handle baseEnv SSHClient.initState).2.1 rfl,
   (c6_connect_handle envConnRefused SSHClient.initState).2.2 rfl⟩

/-- Claim C7: with a live connection, `execute_command` returns the triple
(stripped stdout, stripped stderr, integer exit status); on transport
failure it returns `(None, errorMessage, -1)`. -/
theorem c7_execute_command
    (env : Env) (cmd : String) (s : SSHState)
    (hcl : s.client = some { authenticated := true }) :
    (∀ out err st, env.exec cmd = ExecRes.ok out err st →
        SSHClient.execute_command env cmd s
          = ((some (pyStrip out), pyStrip err, st), s)) ∧
    (∀ msg, env.exec cmd = ExecRes.fail msg →
        SSHClient.execute_command env cmd s = ((none, msg, -1), s)) := by
  constructor
  · intro out err st hexec
    simp [SSHClient.execute_command, SSHClient.execBody, hcl, hexec]
  · intro msg hexec
    simp [SSHClient.execute_command, SSHClient.execBody, hcl, hexec]

/-- Closed witness for C7: a command printing `"alpha\r\nbeta"` with exit 0
comes back as that triple; one that raises "Socket is closed" comes back as
`(none, msg, -1)`. -/
theorem c7_execute_command_witness :
    SSHClient.execute_command baseEnv "dir" liveState
        = ((some "alpha\r\nbeta", "", 0), liveState) ∧
    SSHClient.execute_command
        { baseEnv with exec := fun _ => ExecRes.fail "Socket is closed" }
        "dir" liveState
        = ((none, "Socket is closed", -1), liveState) :=
  ⟨(c7_execute_command baseEnv "dir" liveState rfl).1 "alpha\r\nbeta" "" 0 rfl,
   (c7_execute_command
      { baseEnv with exec := fun _ => ExecRes.fail "Socket is closed" }
      "dir" liveState rfl).2 "Socket is closed" rfl⟩

/-- Claim C8: `close` releases the sftp channel before the client (the
action trace never has a client release strictly before an sftp release),
swallows any release failure (its result does not depend on whether the
library `close()` calls raise), and afterwards both handles are `None` —
in particular the invariant "transfer channel never valid while connection
is None" holds of the final state. -/
theorem c8_close_best_effort
    (env : Env) (s : SSHState) :
    ((SSHClient.close env s).1.sftp = none ∧
     (SSHClient.close env s).1.client = none) ∧
    (∀ env' : Env, SSHClient.close env s = SSHClient.close env' s) ∧
    (∀ l₁ l₂, (SSHClient.close env s).2
        = l₁ ++ SSHClient.ReleaseAct.clientClose :: l₂ →
      SSHClient.ReleaseAct.sftpClose ∉ l₂) := by
  refine ⟨?_, fun env' => rfl, ?_⟩
  · rcases hs : s.sftp with _ | u <;> rcases hc : s.client with _ | h <;>
      simp [SSHClient.close, hs, hc]
  · intro l₁ l₂ htr
    rcases hs : s.sftp with _ | u <;> rcases hc : s.client with _ | h <;>
        simp only [SSHClient.close, hs, hc] at htr <;>
        rcases l₁ with _ | ⟨a, _ | ⟨b, l⟩⟩ <;> simp_all

/-- Closed witness for C8: closing a fully-open session (with both library
releases raising) empties the client handle, and the post-`clientClose`
part of its trace contains no sftp release. -/
theorem c8_close_best_effort_witness :
    (SSHClient.close
        { baseEnv with sftpCloseErr := some "x", clientCloseErr := some "y" }
        { client := some { authenticated := true }, sftp := some () }).1.client
      = none ∧
    SSHClient.ReleaseAct.sftpClose ∉ ([] : List SSHClient.ReleaseAct) :=
  ⟨(c8_close_best_effort
      { baseEnv with sftpCloseErr := some "x", clientCloseErr := some "y" }
      { client := some { authenticated := true }, sftp := some () }).1.2,
   (c8_close_best_effort
      { baseEnv with sftpCloseErr := some "x", clientCloseErr := some "y" }
      { client := some { authenticated := true }, sftp := some () }).2.2
      [SSHClient.ReleaseAct.sftpClose] [] (by decide)⟩

/-- Claim C9: when the folder has no record in the store, `add_file` fails
with exactly "Folder not found in database" and writes nothing; after
`clear_folders` every folder name is in that situation, so an upload after
a cleared folder table cannot be cached. -/
theorem c9_add_file_unknown_folder
    (db : DB) (folder file lp rp : String) (sz : Nat)
    (h : (DatabaseManager.get_folder_id db folder).1 = none) :
    DatabaseManager.add_file db file folder lp rp sz
      = ((false, some "Folder not found in database"), db) ∧
    (∀ db' : DB,
      (DatabaseManager.get_folder_id
        (DatabaseManager.clear_folders db').2 folder).1 = none) := by
  constructor
  · simp [DatabaseManager.add_file, h, DatabaseManager.truthyId]
  · intro db'
    simp [DatabaseManager.get_folder_id, DatabaseManager.clear_folders]

/-- Closed witness for C9: caching `a.txt` under `docs` in an empty store
fails with the exact message and leaves the store unchanged. -/
theorem c9_add_file_unknown_folder_witness :
    DatabaseManager.add_file emptyDB "a.txt" "docs" "C:/tmp/a.txt"
        "C:/root/docs/a.txt" 5
      = ((false, some "Folder not found in database"), emptyDB) :=
  (c9_add_file_unknown_folder emptyDB "docs" "a.txt" "C:/tmp/a.txt"
    "C:/root/docs/a.txt" 5 rfl).1

/-- Membership in an insertion step of the `ORDER BY name` model. -/
theorem mem_insertSorted (x y : String) (l : List String) :
    y ∈ DatabaseManager.insertSorted x l ↔ y = x ∨ y ∈ l := by
  induction l with
  | nil => simp [DatabaseManager.insertSorted]
  | cons z zs ih =>
    by_cases h : x ≤ z
    · simp [DatabaseManager.insertSorted, h]
    · simp only [DatabaseManager.insertSorted, if_neg h, List.mem_cons, ih]
      tauto

/-- Sorting for display does not change which names are present. -/
theorem mem_sortNames (y : String) (l : List String) :
    y ∈ DatabaseManager.sortNames l ↔ y ∈ l := by
  induction l with
  | nil => simp [DatabaseManager.sortNames]
  | cons z zs ih =>
    rw [show DatabaseManager.sortNames (z :: zs)
          = DatabaseManager.insertSorted z (DatabaseManager.sortNames zs) from rfl,
      mem_insertSorted]
    simp [ih]

/-- The `add_folder` loop of `refresh_folder_list`, run over distinct
non-empty names none of which is already cached: it appends exactly one
record per name (in listing order) and computes each new record's
`full_path` as root+name. -/
theorem addAll_spec (root : String) (names : List String) : ∀ (db : DB),
    names.Nodup → (∀ n ∈ names, n ≠ "") →
    (∀ n ∈ names, ∀ r ∈ db.folders, r.name ≠ n) →
    ((BrowseView.addAll root names db).folders.map (fun r => r.name)
        = db.folders.map (fun r => r.name) ++ names) ∧
    (∀ r ∈ (BrowseView.addAll root names db).folders,
        r ∈ db.folders ∨ r.full_path = remotePathJoin root r.name) := by
  induction names with
  | nil =>
    intro db _ _ _
    constructor
    · simp [BrowseView.addAll]
    · intro r hr
      exact Or.inl (by simpa [BrowseView.addAll] using hr)
  | cons n rest ih =>
    intro db hnd hne hfresh
    have hn : n ≠ "" := hne n (by simp)
    have hnone : ¬ ∃ x ∈ db.folders, x.name = n := by
      rintro ⟨x, hx, hxn⟩
      exact hfresh n (by simp) x hx hxn
    have hnotin : n ∉ rest := (List.nodup_cons.mp hnd).1
    have hstep : BrowseView.addAll root (n :: rest) db
        = BrowseView.addAll root rest
            { db with
                folders := db.folders ++
                  [{ id := db.nextFolderId, name := n,
                     full_path := remotePathJoin root n }],
                nextFolderId := db.nextFolderId + 1 } := by
      simp [BrowseView.addAll, DatabaseManager.add_folder, hn, hnone]
    have hih := ih
      { db with
          folders := db.folders ++
            [{ id := db.nextFolderId, name := n,
               full_path := remotePathJoin root n }],
          nextFolderId := db.nextFolderId + 1 }
      (List.nodup_cons.mp hnd).2
      (fun m hm => hne m (List.mem_cons_of_mem n hm))
      (by
        intro m hm r hr
        rcases List.mem_append.mp hr with hold | hnew
        · exact hfresh m (List.mem_cons_of_mem n hm) r hold
        · have heq := List.mem_singleton.mp hnew
          rw [heq]
          intro hcontra
          exact hnotin (by rw [show n = m from hcontra]; exact hm))
    rw [hstep]
    constructor
    · rw [hih.1]
      simp
    · intro r hr
      rcases hih.2 r hr with hin | hfp
      · rcases List.mem_append.mp hin with hold | hnew
        · exact Or.inl hold
        · have heq := List.mem_singleton.mp hnew
          exact Or.inr (by rw [heq])
      · exact Or.inr hfp

/-- Claim C4: folder-list refresh is a full replace — after a successful
`list_folders` result, the cached folder records are exactly one per
returned name (in order) with `full_path` = root+name, and any name absent
from the fresh listing is absent from `get_folder_names` afterward. -/
theorem c4_folder_refresh_full_replace
    (root : String) (names : List String) (db : DB)
    (hnd : names.Nodup) (hne : ∀ n ∈ names, n ≠ "") :
    ((BrowseView.refresh_folder_list root (names, none) db).folders.map
        (fun r => r.name) = names) ∧
    (∀ r ∈ (BrowseView.refresh_folder_list root (names, none) db).folders,
        r.full_path = remotePathJoin root r.name) ∧
    (∀ m, m ∉ names →
        m ∉ (DatabaseManager.get_folder_names
          (BrowseView.refresh_folder_list root (names, none) db)).1) := by
  have h := addAll_spec root names (DatabaseManager.clear_folders db).2 hnd hne
    (by intro n _ r hr; simp [DatabaseManager.clear_folders] at hr)
  have hrw : BrowseView.refresh_folder_list root (names, none) db
      = BrowseView.addAll root names (DatabaseManager.clear_folders db).2 := rfl
  have hmap : (BrowseView.refresh_folder_list root (names, none) db).folders.map
      (fun r => r.name) = names := by
    rw [hrw, h.1]
    simp [DatabaseManager.clear_folders]
  refine ⟨hmap, ?_, ?_⟩
  · intro r hr
    rw [hrw] at hr
    rcases h.2 r hr with hin | hfp
    · simp [DatabaseManager.clear_folders] at hin
    · exact hfp
  · intro m hm hmem
    simp only [DatabaseManager.get_folder_names] at hmem
    rw [mem_sortNames, hmap] at hmem
    exact hm hmem

/-- Closed witness for C4: refreshing against the listing `["b","a"]`
replaces the cached `docs` record by exactly those two names, and `docs` no
longer appears among the folder names. -/
theorem c4_folder_refresh_full_replace_witness :
    ((BrowseView.refresh_folder_list "C:/root" (["b", "a"], none)
        dbSample).folders.map (fun r => r.name) = ["b", "a"]) ∧
    "docs" ∉ (DatabaseManager.get_folder_names
        (BrowseView.refresh_folder_list "C:/root" (["b", "a"], none)
          dbSample)).1 :=
  ⟨(c4_folder_refresh_full_replace "C:/root" ["b", "a"] dbSample (by decide)
      (by decide)).1,
   (c4_folder_refresh_full_replace "C:/root" ["b", "a"] dbSample (by decide)
      (by decide)).2.2 "docs" (by decide)⟩

/-- Claim C5: `upload_file` first ensures the folder via `create_folder`
(tolerating "already exists": any successful `create_folder` outcome
proceeds), then opens the transfer channel, puts the file at
`root/folder/basename(local)`, re-stats it and returns that path with the
re-statted size; if folder creation fails, or the channel cannot be
opened, it returns an error and the orchestrated upload writes no metadata
record. -/
theorem c5_upload_file_pipeline
    (env : Env) (root localPath folder : String) (s : SSHState)
    (hcl : s.client = some { authenticated := true })
    (hsftp : s.sftp = none) :
    (∀ out err sz,
        env.exec ("mkdir \"" ++ remotePathJoin root folder ++ "\"")
          = ExecRes.ok out err 0 →
        env.sftpOpen = none →
        env.putRes localPath
          (remotePathJoin (remotePathJoin root folder) (basename localPath)) = none →
        env.statRes
          (remotePathJoin (remotePathJoin root folder) (basename localPath))
          = Except.ok sz →
        SSHClient.upload_file env root localPath folder s
          = ((some { path := remotePathJoin (remotePathJoin root folder)
                              (basename localPath),
                     size := sz }, none),
             { s with sftp := some () })) ∧
    (∀ out err st,
        env.exec ("mkdir \"" ++ remotePathJoin root folder ++ "\"")
          = ExecRes.ok out err st →
        ¬(st = 0 ∨ hasAlreadyExistsMarker (pyStrip err) = true) →
        SSHClient.upload_file env root localPath folder s
            = ((none, some (pyStrip err)), s) ∧
        (∀ db : DB, UploadView.upload_file_cache
            (SSHClient.upload_file env root localPath folder s).1
            db localPath folder = db)) ∧
    (∀ out err e,
        env.exec ("mkdir \"" ++ remotePathJoin root folder ++ "\"")
          = ExecRes.ok out err 0 →
        env.sftpOpen = some e →
        SSHClient.upload_file env root localPath folder s
            = ((none, some ("SFTP Connection Error: " ++ e)), s) ∧
        (∀ db : DB, UploadView.upload_file_cache
            (SSHClient.upload_file env root localPath folder s).1
            db localPath folder = db)) := by
  refine ⟨?_, ?_, ?_⟩
  · intro out err sz hexec hopen hput hstat
    simp [SSHClient.upload_file, SSHClient.create_folder, SSHClient.execute_command,
      SSHClient.execBody, SSHClient.open_sftp, hcl, hsftp, hexec, hopen, hput, hstat]
  · intro out err st hexec hcond
    have hres : SSHClient.upload_file env root localPath folder s
        = ((none, some (pyStrip err)), s) := by
      have hst : ¬ st = 0 := fun h => hcond (Or.inl h)
      have hmk : ¬ hasAlreadyExistsMarker (pyStrip err) = true :=
        fun h => hcond (Or.inr h)
      simp [SSHClient.upload_file, SSHClient.create_folder,
        SSHClient.execute_command, SSHClient.execBody, hcl, hexec, hst, hmk]
    exact ⟨hres, fun db => by simp [hres, UploadView.upload_file_cache]⟩
  · intro out err e hexec hopen
    have hres : SSHClient.upload_file env root localPath folder s
        = ((none, some ("SFTP Connection Error: " ++ e)), s) := by
      simp [SSHClient.upload_file, SSHClient.create_folder,
        SSHClient.execute_command, SSHClient.execBody, SSHClient.open_sftp,
        hcl, hsftp, hexec, hopen]
    exact ⟨hres, fun db => by simp [hres, UploadView.upload_file_cache]⟩

/-- Closed witness for C5: uploading `C:/tmp/a.txt` into `docs` in a live
session transmits to `C:/root/docs/a.txt` and returns the re-statted size
5; with an unopenable channel the result is the channel error and the
orchestrated upload leaves the store unchanged. -/
theorem c5_upload_file_pipeline_witness :
    SSHClient.upload_file baseEnv "C:/root" "C:/tmp/a.txt" "docs" liveState
        = ((some { path := "C:/root/docs/a.txt", size := 5 }, none),
           { liveState with sftp := some () }) ∧
    UploadView.upload_file_cache
        (SSHClient.upload_file { baseEnv with sftpOpen := some "EOF" }
          "C:/root" "C:/tmp/a.txt" "docs" liveState).1
        emptyDB "C:/tmp/a.txt" "docs" = emptyDB :=
  ⟨(c5_upload_file_pipeline baseEnv "C:/root" "C:/tmp/a.txt" "docs" liveState
      rfl rfl).1 "alpha\r\nbeta" "" 5 rfl rfl rfl rfl,
   ((c5_upload_file_pipeline { baseEnv with sftpOpen := some "EOF" }
      "C:/root" "C:/tmp/a.txt" "docs" liveState rfl rfl).2.2 "alpha\r\nbeta" ""
      "EOF" rfl rfl).2 emptyDB⟩

/-- Lemma: `find?` over a list with no match followed by a matching singleton
finds the appended element. -/
theorem find?_append_singleton {α : Type} (p : α → Bool) (l : List α) (a : α)
    (hl : ∀ x ∈ l, ¬ p x = true) (ha : p a = true) :
    List.find? p (l ++ [a]) = some a := by
  rw [List.find?_append, List.find?_eq_none.mpr hl]
  simp [List.find?, ha]

/-- Claim C10: `add_folder` on an already-present name reports success but
leaves the store entirely unchanged (insert-or-ignore: a stale `full_path`
survives), whereas `add_file` on a conflicting `(folder, name)` key
overwrites — afterwards the lookup returns the freshly inserted record. -/
theorem c10_add_folder_ignore_vs_add_file_replace
    (db : DB) (n newp oldp : String)
    (hold : (DatabaseManager.get_folder_path db n).1 = some oldp) :
    (DatabaseManager.add_folder db n newp = ((true, none), db)) ∧
    ((DatabaseManager.get_folder_path
        (DatabaseManager.add_folder db n newp).2 n).1 = some oldp) ∧
    (∀ (fid : Nat) (db2 : DB) (file lp rp : String) (sz : Nat),
        (DatabaseManager.get_folder_id db2 n).1 = some fid → fid ≠ 0 →
        (DatabaseManager.add_file db2 file n lp rp sz).1 = (true, none) ∧
        (DatabaseManager.get_file_by_name
            (DatabaseManager.add_file db2 file n lp rp sz).2 n file).1
          = some { id := db2.nextFileId, name := file, folder_id := fid,
                   local_path := lp, remote_path := rp, size := sz }) := by
  have hexists : ∃ x ∈ db.folders, x.name = n := by
    simp only [DatabaseManager.get_folder_path, Option.map_eq_some'] at hold
    rcases hold with ⟨r, hfind, _⟩
    exact ⟨r, List.mem_of_find?_eq_some hfind, by simpa using List.find?_some hfind⟩
  have hadd : DatabaseManager.add_folder db n newp = ((true, none), db) := by
    simp [DatabaseManager.add_folder, hexists]
  refine ⟨hadd, by rw [hadd]; exact hold, ?_⟩
  intro fid db2 file lp rp sz hfid hfid0
  have htru : DatabaseManager.truthyId (some fid) = true := by
    simpa [DatabaseManager.truthyId] using hfid0
  constructor
  · simp [DatabaseManager.add_file, hfid, htru]
  · have hfolders : (DatabaseManager.add_file db2 file n lp rp sz).2.folders
        = db2.folders := by
      simp [DatabaseManager.add_file, hfid, htru]
    have hfiles : (DatabaseManager.add_file db2 file n lp rp sz).2.files
        = db2.files.filter (fun r => !(r.folder_id == fid && r.name == file))
            ++ [{ id := db2.nextFileId, name := file, folder_id := fid,
                  local_path := lp, remote_path := rp, size := sz }] := by
      simp [DatabaseManager.add_file, hfid, htru]
    have hfid' : (DatabaseManager.get_folder_id
        (DatabaseManager.add_file db2 file n lp rp sz).2 n).1 = some fid := by
      rw [show ∀ d : DB, (DatabaseManager.get_folder_id d n).1
            = (d.folders.find? (fun r => r.name == n)).map (fun r => r.id)
          from fun d => rfl,
        hfolders]
      exact hfid
    simp only [DatabaseManager.get_file_by_name, hfid']
    rw [if_pos htru]
    simp only [hfiles]
    rw [find?_append_singleton]
    · intro x hx
      have hxf := (List.mem_filter.mp hx).2
      simp only [Bool.not_eq_eq_eq_not, Bool.not_true, Bool.and_eq_false_imp] at hxf ⊢
      simp at hxf ⊢
      tauto
    · simp

/-- Closed witness for C10: re-adding folder `docs` with a different path
leaves `dbSample` untouched and its old path readable, while re-adding file
`docs/a.txt` with a new local path yields the fresh overwritten record. -/
theorem c10_add_folder_ignore_vs_add_file_replace_witness :
    (DatabaseManager.add_folder dbSample "docs" "D:/elsewhere"
        = ((true, none), dbSample)) ∧
    ((DatabaseManager.get_file_by_name
        (DatabaseManager.add_file dbSample "a.txt" "docs" "C:/new/a.txt"
          "C:/root/docs/a.txt" 7).2 "docs" "a.txt").1
      = some { id := 2, name := "a.txt", folder_id := 1,
               local_path := "C:/new/a.txt",
               remote_path := "C:/root/docs/a.txt", size := 7 }) :=
  ⟨(c10_add_folder_ignore_vs_add_file_replace dbSample "docs" "D:/elsewhere"
      "C:/root/docs" rfl).1,
   ((c10_add_folder_ignore_vs_add_file_replace dbSample "docs" "D:/elsewhere"
      "C:/root/docs" rfl).2.2 1 dbSample "a.txt" "C:/new/a.txt"
      "C:/root/docs/a.txt" 7 rfl (by decide)).2⟩

end UploadFile
